import Mathlib

/-
Shallow embedding of via-httplib's src/via/comms/server.hpp
(template class via::comms::server).

Modelling choices:
* A Transport (connection object) is identified by a Nat id; the server
  state carries a fresh-id counter `nextId` so that every call to
  connection_type::create yields a previously unused id.
* boost::system::error_code is `Option Nat` (none = success); the value of
  a particular code is an arbitrary distinguished Nat.
* Observable calls made by the server (OS acceptor operations, async_accept
  scheduling, the Transport factory and start, and the user callbacks) are
  recorded in a trace of `Action`s.
* boost asio operations that take an error_code argument report through it;
  the overloads without one (set_option(reuse_address), bind, listen as
  written in accept_connections) throw on failure, which the embedding
  records as an `Outcome.threw` result carrying the error value.
* The outcome of each OS-level operation is an input, packaged in `OsEnv`.
-/

set_option autoImplicit false

namespace ViaComms

/-- Stand-in value for boost::asio::error::operation_aborted; only its
identity matters for the code paths modelled here. -/
def operationAborted : Nat := 125

/-- Stand-in value for boost::asio::error::already_open, returned by
acceptor.open on an acceptor that is already open. -/
def alreadyOpen : Nat := 114

/-- Modelled from the spec: the DISCONNECTED member of the event
enumeration declared in connection.hpp, which is not under src/; the
server only compares an event against it for equality, so its numeric
value is an arbitrary fixed Nat. -/
def DISCONNECTED : Nat := 2

/-- Modelled from the spec: SocketAdaptor::DEFAULT_RX_BUFFER_SIZE, a
constant of the socket adaptor class, which is not under src/; the server
only copies it into rx_buffer_size_, so its value is an arbitrary fixed
Nat. -/
def DEFAULT_RX_BUFFER_SIZE : Nat := 8192

/-- Observable calls made by the server code: OS acceptor operations,
accept scheduling, Transport creation/start, and user callbacks. -/
inductive Action where
  | openV6 : Action
  | setV6Only : Action
  | getV6Only : Action
  | reuseV6 : Action
  | bindV6 : Action
  | listenV6 : Action
  | openV4 : Action
  | reuseV4 : Action
  | bindV4 : Action
  | listenV4 : Action
  /-- connection_type::create(io_service, ..., rx_buffer_size_):
  a new pending Transport with the given id is created with the given
  receive-buffer size (none models reading an uninitialized field). -/
  | createConn (id : Nat) (rx : Option Nat) : Action
  /-- acceptor_v6_.async_accept on the pending Transport's socket. -/
  | asyncAcceptV6 (id : Nat) : Action
  /-- acceptor_v4_.async_accept on the pending Transport's socket. -/
  | asyncAcceptV4 (id : Nat) : Action
  /-- next_connection_->start(no_delay_, keep_alive_, timeout_). -/
  | startConn (id : Nat) (noDelay keepAlive : Bool) (timeout : Int) : Action
  /-- event_callback_(event, ptr) where ptr is the weak reference. -/
  | eventCb (ev : Nat) (conn : Nat) : Action
  /-- error_callback_(error, conn); conn is none when the pending slot
  holds no Transport. -/
  | errorCb (e : Nat) (conn : Option Nat) : Action
deriving DecidableEq

/-- State of a via::comms::server object: the two acceptors, the pending
slot (next_connection_), the registry (connections_), the configuration
fields, the fresh-id counter, and the record of start() calls with the
parameters each accepted connection was started with. -/
structure ServerState where
  v6IsOpen : Bool
  v6Listening : Bool
  v4IsOpen : Bool
  v4Listening : Bool
  nextConnection : Option Nat
  connections : Finset Nat
  /-- rx_buffer_size_; none models the field never having been
  initialized (an indeterminate value in C++). -/
  rxBufferSize : Option Nat
  timeout : Int
  noDelay : Bool
  keepAlive : Bool
  nextId : Nat
  started : List (Nat × Bool × Bool × Int)
deriving DecidableEq

/-- The one-argument constructor server(io_service): every configuration
field is initialized, rx_buffer_size_ to
SocketAdaptor::DEFAULT_RX_BUFFER_SIZE. -/
def server.ctor1 : ServerState :=
  { v6IsOpen := false, v6Listening := false, v4IsOpen := false,
    v4Listening := false, nextConnection := none, connections := ∅,
    rxBufferSize := some DEFAULT_RX_BUFFER_SIZE, timeout := 0,
    noDelay := false, keepAlive := false, nextId := 0, started := [] }

/-- The three-argument constructor server(io_service, event_callback,
error_callback): its member-initializer list sets timeout_(0),
no_delay_(false) and keep_alive_(false) but omits rx_buffer_size_, so
that field is left uninitialized (modelled as none). -/
def server.ctor2 : ServerState :=
  { server.ctor1 with rxBufferSize := none }

/-- start_accept: create the next pending connection, passing the current
rx_buffer_size_, store it in next_connection_, and issue an async_accept
on each acceptor that is open. -/
def start_accept (s : ServerState) : ServerState × List Action :=
  let cid := s.nextId
  ({ s with nextConnection := some cid, nextId := s.nextId + 1 },
   [Action.createConn cid s.rxBufferSize]
     ++ (if s.v6IsOpen then [Action.asyncAcceptV6 cid] else [])
     ++ (if s.v4IsOpen then [Action.asyncAcceptV4 cid] else []))

/-- accept_handler(error): if an acceptor is open and the error is not
operation_aborted then either forward a set error together with
next_connection_ through the error callback, or start the pending
connection with the current configuration, insert it into connections_
and reset next_connection_; in both cases call start_accept. Otherwise do
nothing. Returns none exactly when the C++ would dereference a null
next_connection_ (undefined behavior). -/
def accept_handler (error : Option Nat) (s : ServerState) :
    Option (ServerState × List Action) :=
  if (s.v6IsOpen || s.v4IsOpen) = true ∧ error ≠ some operationAborted then
    match error with
    | some e =>
      let p := start_accept s
      some (p.1, Action.errorCb e s.nextConnection :: p.2)
    | none =>
      match s.nextConnection with
      | none => none
      | some cid =>
        let s1 := { s with
          connections := insert cid s.connections,
          nextConnection := none,
          started := (cid, s.noDelay, s.keepAlive, s.timeout) :: s.started }
        let p := start_accept s1
        some (p.1, Action.startConn cid s.noDelay s.keepAlive s.timeout :: p.2)
  else some (s, [])

/-- event_handler(event, ptr): forward the event unconditionally, and for
a DISCONNECTED event, if the weak pointer still locks (alive), find the
connection in connections_ and erase it when found. `wptr` is the id the
weak pointer refers to and `alive` is whether ptr.lock() succeeds. -/
def event_handler (ev : Nat) (wptr : Nat) (alive : Bool) (s : ServerState) :
    ServerState × List Action :=
  let acts := [Action.eventCb ev wptr]
  if ev = DISCONNECTED then
    if alive then
      if wptr ∈ s.connections then
        ({ s with connections := s.connections.erase wptr }, acts)
      else (s, acts)
    else (s, acts)
  else (s, acts)

/-- error_handler(error, connection): just forwards to error_callback_. -/
def error_handler (e : Nat) (wptr : Nat) (s : ServerState) :
    ServerState × List Action :=
  (s, [Action.errorCb e (some wptr)])

/-- set_rx_buffer_size(size). -/
def set_rx_buffer_size (size : Nat) (s : ServerState) : ServerState :=
  { s with rxBufferSize := some size }

/-- set_no_delay(enable). -/
def set_no_delay (enable : Bool) (s : ServerState) : ServerState :=
  { s with noDelay := enable }

/-- set_keep_alive(enable). -/
def set_keep_alive (enable : Bool) (s : ServerState) : ServerState :=
  { s with keepAlive := enable }

/-- set_timeout(timeout). -/
def set_timeout (timeout : Int) (s : ServerState) : ServerState :=
  { s with timeout := timeout }

/-- close(): close both acceptors (asio close on an acceptor that is not
open is a no-op), reset next_connection_ and clear connections_. -/
def close (s : ServerState) : ServerState :=
  { s with v6IsOpen := false, v6Listening := false,
           v4IsOpen := false, v4Listening := false,
           nextConnection := none, connections := ∅ }

/-- The destructor, which calls close(). -/
def destructor (s : ServerState) : ServerState := close s

/-- Results of the OS-level acceptor operations attempted by
accept_connections, as an oracle: none means the operation succeeds, some
e that it reports (or throws) error e. v6OnlyActual is the value
get_option(ipv6_only) reads back after the set_option attempt. -/
structure OsEnv where
  v6Open : Option Nat
  v6SetV6Only : Option Nat
  v6OnlyActual : Bool
  v6Reuse : Option Nat
  v6Bind : Option Nat
  v6Listen : Option Nat
  v4Open : Option Nat
  v4Reuse : Option Nat
  v4Bind : Option Nat
  v4Listen : Option Nat
deriving DecidableEq

/-- What a call to accept_connections delivers to its caller: either the
value of the returned error_code variable, or an exception thrown by one
of the no-error_code-argument overloads (set_option(reuse_address), bind,
listen). -/
inductive Outcome where
  | returned (ec : Option Nat) : Outcome
  | threw (e : Nat) : Outcome
deriving DecidableEq

/-- Result of the IPv6 phase of accept_connections: the state after it,
its trace, the error_code variable, the local ipv6_only variable, and the
exception in flight if one was thrown. -/
structure V6Out where
  st : ServerState
  acts : List Action
  ec : Option Nat
  v6only : Bool
  thrown : Option Nat
deriving DecidableEq

/-- Lines 258-275 of server.hpp: unless ipv4_only, open the IPv6 acceptor
reporting into ec; when open succeeded, set_option(ipv6_only, ec), read
the option back, then set_option(reuse_address), bind and listen, each of
which throws on failure. The local ipv6_only variable starts false. -/
def v6Phase (env : OsEnv) (ipv4_only : Bool) (s : ServerState) : V6Out :=
  if ipv4_only then ⟨s, [], none, false, none⟩
  else
    let ecOpen := if s.v6IsOpen then some alreadyOpen else env.v6Open
    match ecOpen with
    | some e => ⟨s, [Action.openV6], some e, false, none⟩
    | none =>
      let s1 := { s with v6IsOpen := true }
      let ec2 := env.v6SetV6Only
      let v6only := env.v6OnlyActual
      match env.v6Reuse with
      | some e =>
        ⟨s1, [Action.openV6, Action.setV6Only, Action.getV6Only,
              Action.reuseV6], ec2, v6only, some e⟩
      | none =>
        match env.v6Bind with
        | some e =>
          ⟨s1, [Action.openV6, Action.setV6Only, Action.getV6Only,
                Action.reuseV6, Action.bindV6], ec2, v6only, some e⟩
        | none =>
          match env.v6Listen with
          | some e =>
            ⟨s1, [Action.openV6, Action.setV6Only, Action.getV6Only,
                  Action.reuseV6, Action.bindV6, Action.listenV6],
             ec2, v6only, some e⟩
          | none =>
            ⟨{ s1 with v6Listening := true },
             [Action.openV6, Action.setV6Only, Action.getV6Only,
              Action.reuseV6, Action.bindV6, Action.listenV6],
             ec2, v6only, none⟩

/-- Result of the IPv4 phase of accept_connections. -/
structure V4Out where
  st : ServerState
  acts : List Action
  ec : Option Nat
  thrown : Option Nat
deriving DecidableEq

/-- Lines 279-290 of server.hpp: open the IPv4 acceptor reporting into
ec; when open succeeded, set_option(reuse_address), bind and listen, each
of which throws on failure. -/
def v4Phase (env : OsEnv) (s : ServerState) : V4Out :=
  let ecOpen := if s.v4IsOpen then some alreadyOpen else env.v4Open
  match ecOpen with
  | some e => ⟨s, [Action.openV4], some e, none⟩
  | none =>
    let s1 := { s with v4IsOpen := true }
    match env.v4Reuse with
    | some e => ⟨s1, [Action.openV4, Action.reuseV4], none, some e⟩
    | none =>
      match env.v4Bind with
      | some e =>
        ⟨s1, [Action.openV4, Action.reuseV4, Action.bindV4], none, some e⟩
      | none =>
        match env.v4Listen with
        | some e =>
          ⟨s1, [Action.openV4, Action.reuseV4, Action.bindV4,
                Action.listenV4], none, some e⟩
        | none =>
          ⟨{ s1 with v4Listening := true },
           [Action.openV4, Action.reuseV4, Action.bindV4,
            Action.listenV4], none, none⟩

/-- Result of accept_connections: the state it leaves the server in, its
trace, and what the caller receives. -/
structure AcceptOut where
  st : ServerState
  acts : List Action
  out : Outcome
deriving DecidableEq

/-- accept_connections(port, ipv4_only): run the IPv6 phase; if it threw,
the exception propagates. Then, if the IPv6 acceptor is not open or the
ipv6_only variable is set, run the IPv4 phase (its open overwrites ec);
if it threw, the exception propagates. Finally call start_accept and
return ec. The port itself is abstracted into the OsEnv oracle. -/
def accept_connections (env : OsEnv) (ipv4_only : Bool) (s : ServerState) :
    AcceptOut :=
  let r6 := v6Phase env ipv4_only s
  match r6.thrown with
  | some e => ⟨r6.st, r6.acts, Outcome.threw e⟩
  | none =>
    if !r6.st.v6IsOpen || r6.v6only then
      let r4 := v4Phase env r6.st
      match r4.thrown with
      | some e => ⟨r4.st, r6.acts ++ r4.acts, Outcome.threw e⟩
      | none =>
        let p := start_accept r4.st
        ⟨p.1, r6.acts ++ r4.acts ++ p.2, Outcome.returned r4.ec⟩
    else
      let p := start_accept r6.st
      ⟨p.1, r6.acts ++ p.2, Outcome.returned r6.ec⟩

/-- One step of the server: any of its operations run once. Accept
completions are only steps when the handler is defined (a null
dereference has no defined successor state). -/
inductive Step : ServerState → ServerState → Prop where
  | openConns (s : ServerState) (env : OsEnv) (ipv4_only : Bool) :
      Step s (accept_connections env ipv4_only s).st
  | acceptDone (s : ServerState) (e : Option Nat)
      (p : ServerState × List Action) (h : accept_handler e s = some p) :
      Step s p.1
  | eventDelivery (s : ServerState) (ev wptr : Nat) (alive : Bool) :
      Step s (event_handler ev wptr alive s).1
  | errorDelivery (s : ServerState) (e wptr : Nat) :
      Step s (error_handler e wptr s).1
  | closeServer (s : ServerState) : Step s (close s)
  | setRx (s : ServerState) (n : Nat) : Step s (set_rx_buffer_size n s)
  | setNoDelay (s : ServerState) (b : Bool) : Step s (set_no_delay b s)
  | setKeepAlive (s : ServerState) (b : Bool) : Step s (set_keep_alive b s)
  | setTimeout (s : ServerState) (t : Int) : Step s (set_timeout t s)

/-- States reachable from a freshly constructed server through the
server's operations. -/
inductive Reachable : ServerState → Prop where
  | init1 : Reachable server.ctor1
  | init2 : Reachable server.ctor2
  | step {s t : ServerState} : Reachable s → Step s t → Reachable t

/-- The freshness invariant: every registered connection id and the
pending id are below the fresh-id counter, and the pending id is not
registered. -/
def ServerInv (s : ServerState) : Prop :=
  (∀ c ∈ s.connections, c < s.nextId) ∧
  (∀ c, s.nextConnection = some c → c < s.nextId ∧ c ∉ s.connections)

/-- C5: error_handler forwards the transport error to the server's error
callback and changes no server state at all: the returned state is the
input state, so the registry, the pending slot, both acceptors and every
configuration field are unchanged, and in particular the originating
Transport is never removed from the registry. -/
theorem c5_error_handler_pure_forward (s : ServerState) (e wptr : Nat) :
    (error_handler e wptr s).1 = s ∧
    Action.errorCb e (some wptr) ∈ (error_handler e wptr s).2 := by
  constructor
  · rfl
  · simp [error_handler]

/-- C6: close is idempotent: after close both acceptors are closed, the
pending slot is empty and the registry is empty, whatever the prior state
was; a second close leaves that state unchanged, and the destructor
performs close. -/
theorem c6_close_idempotent (s : ServerState) :
    (close s).v6IsOpen = false ∧ (close s).v4IsOpen = false ∧
    (close s).nextConnection = none ∧ (close s).connections = ∅ ∧
    close (close s) = close s ∧ destructor s = close s := by
  refine ⟨rfl, rfl, rfl, rfl, rfl, rfl⟩

/-- C8: an accept completion with the operation_aborted error, or one
delivered when neither listener is open, does nothing: accept_handler
returns the state unchanged with an empty trace, so it neither calls
start_accept nor forwards anything through the error callback. -/
theorem c8_cancellation_does_nothing (s : ServerState) (e : Option Nat)
    (h : e = some operationAborted ∨ (s.v6IsOpen = false ∧ s.v4IsOpen = false)) :
    accept_handler e s = some (s, []) := by
  rcases h with h | ⟨h6, h4⟩
  · subst h
    simp [accept_handler]
  · simp [accept_handler, h6, h4]
/-- Witness for c8_cancellation_does_nothing at a concrete state with an
open listener and the operation_aborted error. -/
theorem c8_witness :
    accept_handler (some operationAborted)
      { server.ctor1 with v6IsOpen := true } =
      some ({ server.ctor1 with v6IsOpen := true }, []) :=
  c8_cancellation_does_nothing _ _ (Or.inl rfl)

/-- C10: the callback-less constructor initializes rx_buffer_size_ to the
socket adaptor's default, but the two-argument constructor taking the
event and error callbacks omits rx_buffer_size_ from its initializer
list, so the field is left uninitialized and the pending Transport
created by a subsequent start_accept is created from an indeterminate
receive-buffer size, contradicting the claim. -/
theorem c10_ctor2_rx_buffer_uninitialized :
    server.ctor1.rxBufferSize = some DEFAULT_RX_BUFFER_SIZE ∧
    server.ctor2.rxBufferSize = none ∧
    server.ctor2.rxBufferSize ≠ server.ctor1.rxBufferSize ∧
    (start_accept server.ctor2).2 = [Action.createConn 0 none] := by
  refine ⟨rfl, rfl, by decide, rfl⟩

/-- C4: the event router forwards every event to the server's event
callback; a connection is removed from the registry exactly when the
event is DISCONNECTED and the weak reference still resolves, and removal
of an absent connection is a no-op (the state is unchanged, so a second
DISCONNECTED notification for the same Transport does not fail and does
not change the registry). -/
theorem c4_event_router (s : ServerState) (ev wptr : Nat) (alive : Bool) :
    Action.eventCb ev wptr ∈ (event_handler ev wptr alive s).2 ∧
    (ev = DISCONNECTED → alive = true → wptr ∈ s.connections →
      (event_handler ev wptr alive s).1.connections = s.connections.erase wptr ∧
      wptr ∉ (event_handler ev wptr alive s).1.connections) ∧
    (ev = DISCONNECTED → alive = true → wptr ∉ s.connections →
      (event_handler ev wptr alive s).1 = s) ∧
    (ev ≠ DISCONNECTED → (event_handler ev wptr alive s).1 = s) ∧
    (alive = false → (event_handler ev wptr alive s).1 = s) := by
  refine ⟨?_, ?_, ?_, ?_, ?_⟩
  · unfold event_handler
    split <;> [skip; simp] <;> split <;> [skip; simp] <;> split <;> simp
  · intro hev halive hmem
    subst hev; subst halive
    simp [event_handler, hmem]
  · intro hev halive hmem
    subst hev; subst halive
    simp [event_handler, hmem]
  · intro hev
    simp [event_handler, hev]
  · intro halive
    subst halive
    unfold event_handler
    split <;> simp

/-- Witness for c4_event_router: with registry {5}, a DISCONNECTED event
whose weak reference resolves to 5 removes 5; delivered again (5 now
absent) it leaves the state unchanged; a non-DISCONNECTED event never
removes. -/
theorem c4_witness :
    (Action.eventCb DISCONNECTED 5 ∈
      (event_handler DISCONNECTED 5 true
        { server.ctor1 with connections := {5} }).2) ∧
    (event_handler DISCONNECTED 5 true
        { server.ctor1 with connections := {5} }).1.connections =
      ({5} : Finset Nat).erase 5 ∧
    (event_handler DISCONNECTED 5 true server.ctor1).1 = server.ctor1 := by
  obtain ⟨h1, h2, h3, -, -⟩ :=
    c4_event_router { server.ctor1 with connections := {5} } DISCONNECTED 5 true
  obtain ⟨h2a, -⟩ := h2 rfl rfl (by decide)
  refine ⟨h1, h2a, ?_⟩
  obtain ⟨-, -, h3b, -, -⟩ := c4_event_router server.ctor1 DISCONNECTED 5 true
  exact h3b rfl rfl (by decide)

/-- C1: on an accept completion with a listener open and an error that is
not operation_aborted, accept_handler with no error starts the pending
Transport with the currently configured no-delay, keep-alive and timeout
settings, inserts it into the registry and clears the pending slot (the
slot afterwards holds the fresh Transport made by start_accept, not the
promoted one); with a set error it forwards the error together with the
pending Transport through the error callback and leaves the registry
unchanged; in both cases start_accept re-arms the loop, creating a fresh
pending Transport and scheduling an accept on every open listener. -/
theorem c1_accept_completion (s : ServerState) (cid : Nat) (e : Option Nat)
    (hpend : s.nextConnection = some cid)
    (hopen : s.v6IsOpen = true ∨ s.v4IsOpen = true)
    (habort : e ≠ some operationAborted)
    (hfresh : cid < s.nextId) :
    (accept_handler e s).isSome = true ∧
    ∀ p, accept_handler e s = some p →
      p.1.nextConnection = some s.nextId ∧
      p.1.nextConnection ≠ some cid ∧
      Action.createConn s.nextId s.rxBufferSize ∈ p.2 ∧
      (s.v6IsOpen = true → Action.asyncAcceptV6 s.nextId ∈ p.2) ∧
      (s.v4IsOpen = true → Action.asyncAcceptV4 s.nextId ∈ p.2) ∧
      (e = none →
        Action.startConn cid s.noDelay s.keepAlive s.timeout ∈ p.2 ∧
        p.1.connections = insert cid s.connections ∧
        (cid, s.noDelay, s.keepAlive, s.timeout) ∈ p.1.started) ∧
      (∀ er, e = some er →
        Action.errorCb er (some cid) ∈ p.2 ∧
        p.1.connections = s.connections) := by
  have hguard : (s.v6IsOpen || s.v4IsOpen) = true := by
    rcases hopen with h | h <;> simp [h]
  match e with
  | none =>
    have key : accept_handler none s =
        some ((start_accept { s with
            connections := insert cid s.connections,
            nextConnection := none,
            started := (cid, s.noDelay, s.keepAlive, s.timeout) :: s.started }).1,
          Action.startConn cid s.noDelay s.keepAlive s.timeout ::
            (start_accept { s with
              connections := insert cid s.connections,
              nextConnection := none,
              started := (cid, s.noDelay, s.keepAlive, s.timeout) :: s.started }).2) := by
      unfold accept_handler
      rw [hpend]
      simp [hguard]
    refine ⟨by simp [key], ?_⟩
    intro p hp
    rw [key] at hp
    obtain rfl : _ = p := Option.some.inj hp
    refine ⟨?_, ?_, ?_, ?_, ?_, ?_, ?_⟩
    · simp [start_accept]
    · simp [start_accept]; omega
    · simp [start_accept]
    · intro h6; simp [start_accept, h6]
    · intro h4; simp [start_accept, h4]
    · exact fun _ =>
        ⟨by simp [start_accept], by simp [start_accept], by simp [start_accept]⟩
    · intro er her; cases her
  | some er0 =>
    have key : accept_handler (some er0) s =
        some ((start_accept s).1,
          Action.errorCb er0 s.nextConnection :: (start_accept s).2) := by
      unfold accept_handler
      rw [if_pos ⟨hguard, habort⟩]
    refine ⟨by simp [key], ?_⟩
    intro p hp
    rw [key] at hp
    obtain rfl : _ = p := Option.some.inj hp
    refine ⟨?_, ?_, ?_, ?_, ?_, ?_, ?_⟩
    · simp [start_accept]
    · simp [start_accept]; omega
    · simp [start_accept]
    · intro h6; simp [start_accept, h6]
    · intro h4; simp [start_accept, h4]
    · intro h; cases h
    · intro er her
      obtain rfl : er0 = er := by cases her; rfl
      exact ⟨by simp [start_accept, hpend], by simp [start_accept]⟩

/-- Witness for c1_accept_completion: a server with an open IPv6
listener, pending Transport 0 and nextId 1, on a successful accept
completion; the promoted connection 0 enters the registry and the fresh
pending Transport is 1. -/
theorem c1_witness :
    (accept_handler none
      { server.ctor1 with v6IsOpen := true, nextConnection := some 0,
                          nextId := 1 }).isSome = true ∧
    Action.startConn 0 false false 0 ∈
      [Action.startConn 0 false false 0,
       Action.createConn 1 (some DEFAULT_RX_BUFFER_SIZE),
       Action.asyncAcceptV6 1] := by
  have h :=
    c1_accept_completion
      { server.ctor1 with v6IsOpen := true, nextConnection := some 0,
                          nextId := 1 }
      0 none rfl (Or.inl rfl) (by decide) (by decide)
  refine ⟨h.1, ?_⟩
  exact ((h.2
    ({ server.ctor1 with
        v6IsOpen := true
        connections := insert 0 ∅
        nextConnection := some 1
        nextId := 2
        started := [(0, false, false, 0)] },
     [Action.startConn 0 false false 0,
      Action.createConn 1 (some DEFAULT_RX_BUFFER_SIZE),
      Action.asyncAcceptV6 1])
    rfl).2.2.2.2.2.1 rfl).1

/-- C7: each configuration setter changes exactly its own field; the
record of settings each accepted connection was started with is
unchanged by every setter (already-accepted connections retain the
settings in effect at their acceptance time); and a connection accepted
after set_timeout is started with the new timeout and the other current
settings. -/
theorem c7_setters_only_future (s : ServerState) (n : Nat) (b1 b2 : Bool)
    (t : Int) :
    set_timeout t s = { s with timeout := t } ∧
    set_no_delay b1 s = { s with noDelay := b1 } ∧
    set_keep_alive b2 s = { s with keepAlive := b2 } ∧
    set_rx_buffer_size n s = { s with rxBufferSize := some n } ∧
    (set_timeout t s).started = s.started ∧
    (set_no_delay b1 s).started = s.started ∧
    (set_keep_alive b2 s).started = s.started ∧
    (set_rx_buffer_size n s).started = s.started ∧
    (∀ cid, s.nextConnection = some cid →
      (s.v6IsOpen = true ∨ s.v4IsOpen = true) →
      ∀ p, accept_handler none (set_timeout t s) = some p →
        Action.startConn cid s.noDelay s.keepAlive t ∈ p.2 ∧
        (cid, s.noDelay, s.keepAlive, t) ∈ p.1.started ∧
        ∀ entry ∈ s.started, entry ∈ p.1.started) := by
  refine ⟨rfl, rfl, rfl, rfl, rfl, rfl, rfl, rfl, ?_⟩
  intro cid hpend hopen
  have hguard : (s.v6IsOpen || s.v4IsOpen) = true := by
    rcases hopen with h | h <;> simp [h]
  have key : accept_handler none (set_timeout t s) =
      some ((start_accept { s with
          timeout := t,
          connections := insert cid s.connections,
          nextConnection := none,
          started := (cid, s.noDelay, s.keepAlive, t) :: s.started }).1,
        Action.startConn cid s.noDelay s.keepAlive t ::
          (start_accept { s with
            timeout := t,
            connections := insert cid s.connections,
            nextConnection := none,
            started := (cid, s.noDelay, s.keepAlive, t) :: s.started }).2) := by
    unfold accept_handler set_timeout
    rw [show ({ s with timeout := t } : ServerState).nextConnection =
          some cid from hpend]
    simp [hguard]
  intro p hp
  rw [key] at hp
  obtain rfl : _ = p := Option.some.inj hp
  refine ⟨by simp [start_accept], by simp [start_accept], ?_⟩
  intro entry hentry
  simp [start_accept]
  exact Or.inr hentry

/-- Witness for c7_setters_only_future: set_timeout 30 on a server with
one accepted connection started with timeout 0; its recorded settings
are unchanged, while the next accepted connection is started with 30. -/
theorem c7_witness :
    (set_timeout 30
      { server.ctor1 with v6IsOpen := true, connections := {0},
                          started := [(0, false, false, 0)],
                          nextConnection := some 1, nextId := 2 }).started =
      [(0, false, false, 0)] ∧
    (1, false, false, (30 : Int)) ∈
      [((1 : Nat), false, false, (30 : Int)), (0, false, false, 0)] ∧
    (0, false, false, (0 : Int)) ∈
      [((1 : Nat), false, false, (30 : Int)), (0, false, false, 0)] := by
  obtain ⟨-, -, -, -, h5, -, -, -, h9⟩ :=
    c7_setters_only_future
      { server.ctor1 with v6IsOpen := true, connections := {0},
                          started := [(0, false, false, 0)],
                          nextConnection := some 1, nextId := 2 }
      0 false false 30
  obtain ⟨-, hmem, hkeep⟩ := h9 1 rfl (Or.inl rfl)
    ({ server.ctor1 with
        v6IsOpen := true
        connections := insert 1 {0}
        started := [(1, false, false, 30), (0, false, false, 0)]
        nextConnection := some 2
        nextId := 3
        timeout := 30 },
     [Action.startConn 1 false false 30,
      Action.createConn 2 (some DEFAULT_RX_BUFFER_SIZE),
      Action.asyncAcceptV6 2])
    rfl
  exact ⟨h5, hmem, hkeep (0, false, false, 0) (by decide)⟩

theorem v6Phase_frame (env : OsEnv) (b : Bool) (s : ServerState) :
    (v6Phase env b s).st.v4IsOpen = s.v4IsOpen ∧
    (v6Phase env b s).st.v4Listening = s.v4Listening ∧
    (v6Phase env b s).st.connections = s.connections ∧
    (v6Phase env b s).st.nextConnection = s.nextConnection ∧
    (v6Phase env b s).st.nextId = s.nextId ∧
    (v6Phase env b s).st.rxBufferSize = s.rxBufferSize := by
  obtain ⟨o6, s6, a6, r6, b6, l6, o4, r4, b4, l4⟩ := env
  cases b <;> cases hs : s.v6IsOpen <;>
    cases o6 <;> cases r6 <;> cases b6 <;> cases l6 <;>
      simp [v6Phase, hs]

theorem v4Phase_frame (env : OsEnv) (s : ServerState) :
    (v4Phase env s).st.v6IsOpen = s.v6IsOpen ∧
    (v4Phase env s).st.v6Listening = s.v6Listening ∧
    (v4Phase env s).st.connections = s.connections ∧
    (v4Phase env s).st.nextConnection = s.nextConnection ∧
    (v4Phase env s).st.nextId = s.nextId ∧
    (v4Phase env s).st.rxBufferSize = s.rxBufferSize := by
  obtain ⟨o6, s6, a6, r6, b6, l6, o4, r4, b4, l4⟩ := env
  cases hs : s.v4IsOpen <;>
    cases o4 <;> cases r4 <;> cases b4 <;> cases l4 <;>
      simp [v4Phase, hs]

theorem v6Phase_acts (env : OsEnv) (b : Bool) (s : ServerState)
    (id : Nat) (rx : Option Nat) :
    Action.createConn id rx ∉ (v6Phase env b s).acts ∧
    Action.asyncAcceptV6 id ∉ (v6Phase env b s).acts ∧
    Action.asyncAcceptV4 id ∉ (v6Phase env b s).acts ∧
    Action.openV4 ∉ (v6Phase env b s).acts := by
  obtain ⟨o6, s6, a6, r6, b6, l6, o4, r4, b4, l4⟩ := env
  cases b <;> cases hs : s.v6IsOpen <;>
    cases o6 <;> cases r6 <;> cases b6 <;> cases l6 <;>
      simp [v6Phase, hs]

theorem v4Phase_acts (env : OsEnv) (s : ServerState)
    (id : Nat) (rx : Option Nat) :
    Action.createConn id rx ∉ (v4Phase env s).acts ∧
    Action.asyncAcceptV6 id ∉ (v4Phase env s).acts ∧
    Action.asyncAcceptV4 id ∉ (v4Phase env s).acts := by
  obtain ⟨o6, s6, a6, r6, b6, l6, o4, r4, b4, l4⟩ := env
  cases hs : s.v4IsOpen <;>
    cases o4 <;> cases r4 <;> cases b4 <;> cases l4 <;>
      simp [v4Phase, hs]

/-- C2: when a bind or listen step fails on an attempted endpoint (for
example, the port is already bound), the failure is what
accept_connections delivers to its caller, carrying that step's error
code; the registry remains empty, the pending slot stays empty, no
Transport is created and no accept is scheduled; and an endpoint that
had already reached the listening state when the other family failed is
still listening afterwards. -/
theorem c2_bind_listen_failure (env : OsEnv) (ipv4_only : Bool)
    (s : ServerState) (e : Nat)
    (hreg : s.connections = ∅) (hpend : s.nextConnection = none)
    (hcause :
      (ipv4_only = false ∧ s.v6IsOpen = false ∧ env.v6Open = none ∧
        env.v6Reuse = none ∧
        (env.v6Bind = some e ∨ (env.v6Bind = none ∧ env.v6Listen = some e)))
      ∨
      ((v6Phase env ipv4_only s).thrown = none ∧
        ((v6Phase env ipv4_only s).st.v6IsOpen = false ∨
          (v6Phase env ipv4_only s).v6only = true) ∧
        s.v4IsOpen = false ∧ env.v4Open = none ∧ env.v4Reuse = none ∧
        (env.v4Bind = some e ∨ (env.v4Bind = none ∧ env.v4Listen = some e)))) :
    (accept_connections env ipv4_only s).out = Outcome.threw e ∧
    (accept_connections env ipv4_only s).st.connections = ∅ ∧
    (accept_connections env ipv4_only s).st.nextConnection = none ∧
    (∀ id rx,
      Action.createConn id rx ∉ (accept_connections env ipv4_only s).acts) ∧
    (∀ id,
      Action.asyncAcceptV6 id ∉ (accept_connections env ipv4_only s).acts) ∧
    (∀ id,
      Action.asyncAcceptV4 id ∉ (accept_connections env ipv4_only s).acts) ∧
    ((v6Phase env ipv4_only s).st.v6Listening = true →
      (accept_connections env ipv4_only s).st.v6Listening = true) := by
  rcases hcause with ⟨hip, hs6, ho, hr, hbl⟩ |
    ⟨hnothrow, hcond, hs4, ho4, hr4, hbl4⟩
  · subst hip
    rcases hbl with hb | ⟨hb, hl⟩
    · have hv6 : v6Phase env false s =
          ⟨{ s with v6IsOpen := true },
           [Action.openV6, Action.setV6Only, Action.getV6Only,
            Action.reuseV6, Action.bindV6],
           env.v6SetV6Only, env.v6OnlyActual, some e⟩ := by
        simp [v6Phase, hs6, ho, hr, hb]
      simp [accept_connections, hv6, hreg, hpend]
    · have hv6 : v6Phase env false s =
          ⟨{ s with v6IsOpen := true },
           [Action.openV6, Action.setV6Only, Action.getV6Only,
            Action.reuseV6, Action.bindV6, Action.listenV6],
           env.v6SetV6Only, env.v6OnlyActual, some e⟩ := by
        simp [v6Phase, hs6, ho, hr, hb, hl]
      simp [accept_connections, hv6, hreg, hpend]
  · have hs4' : (v6Phase env ipv4_only s).st.v4IsOpen = false :=
      (v6Phase_frame env ipv4_only s).1.trans hs4
    have hcond' :
        (!(v6Phase env ipv4_only s).st.v6IsOpen ||
          (v6Phase env ipv4_only s).v6only) = true := by
      rcases hcond with h | h <;> simp [h]
    have hframe := v6Phase_frame env ipv4_only s
    rcases hbl4 with hb | ⟨hb, hl⟩
    · have hv4 : v4Phase env (v6Phase env ipv4_only s).st =
          ⟨{ (v6Phase env ipv4_only s).st with v4IsOpen := true },
           [Action.openV4, Action.reuseV4, Action.bindV4], none, some e⟩ := by
        simp [v4Phase, hs4', ho4, hr4, hb]
      refine ⟨?_, ?_, ?_, ?_, ?_, ?_, ?_⟩ <;>
        simp [accept_connections, hnothrow, hcond', hv4, hframe.2.2.1,
              hframe.2.2.2.1, hreg, hpend] <;>
        intro id <;>
        first
          | exact fun rx => (v6Phase_acts env ipv4_only s id rx).1
          | exact (v6Phase_acts env ipv4_only s id none).2.1
          | exact (v6Phase_acts env ipv4_only s id none).2.2.1
    · have hv4 : v4Phase env (v6Phase env ipv4_only s).st =
          ⟨{ (v6Phase env ipv4_only s).st with v4IsOpen := true },
           [Action.openV4, Action.reuseV4, Action.bindV4, Action.listenV4],
           none, some e⟩ := by
        simp [v4Phase, hs4', ho4, hr4, hb, hl]
      refine ⟨?_, ?_, ?_, ?_, ?_, ?_, ?_⟩ <;>
        simp [accept_connections, hnothrow, hcond', hv4, hframe.2.2.1,
              hframe.2.2.2.1, hreg, hpend] <;>
        intro id <;>
        first
          | exact fun rx => (v6Phase_acts env ipv4_only s id rx).1
          | exact (v6Phase_acts env ipv4_only s id none).2.1
          | exact (v6Phase_acts env ipv4_only s id none).2.2.1

/-- Witness for c2_bind_listen_failure: a fresh server, IPv6 open
succeeds but bind fails with error 98 (the port is already bound); the
call delivers error 98, the registry stays empty and no accept is
scheduled. -/
theorem c2_witness :
    (accept_connections
      ⟨none, none, false, none, some 98, none, none, none, none, none⟩
      false server.ctor1).out = Outcome.threw 98 ∧
    (accept_connections
      ⟨none, none, false, none, some 98, none, none, none, none, none⟩
      false server.ctor1).st.connections = ∅ ∧
    Action.asyncAcceptV6 0 ∉
      (accept_connections
        ⟨none, none, false, none, some 98, none, none, none, none, none⟩
        false server.ctor1).acts := by
  have h :=
    c2_bind_listen_failure
      ⟨none, none, false, none, some 98, none, none, none, none, none⟩
      false server.ctor1 98 rfl rfl
      (Or.inl ⟨rfl, rfl, rfl, rfl, Or.inl rfl⟩)
  exact ⟨h.1, h.2.1, h.2.2.2.2.1 0⟩

/-- Counterexample to C2 as stated: on a fresh server whose IPv6 open
succeeds and whose bind then fails with error 98 (address in use),
accept_connections does not return the failure through its error_code
result: the call ends in a thrown error (bind is invoked without an
error_code argument, so boost throws), and the outcome is not a returned
error code, neither 98 nor success. -/
theorem c2_counterexample :
    (accept_connections
      ⟨none, none, false, none, some 98, none, none, none, none, none⟩
      false server.ctor1).out = Outcome.threw 98 ∧
    (accept_connections
      ⟨none, none, false, none, some 98, none, none, none, none, none⟩
      false server.ctor1).out ≠ Outcome.returned (some 98) ∧
    (accept_connections
      ⟨none, none, false, none, some 98, none, none, none, none, none⟩
      false server.ctor1).out ≠ Outcome.returned none := by
  refine ⟨rfl, by decide, by decide⟩

/-- C3: assuming the IPv6 phase completed without throwing and the IPv4
acceptor's own open/reuse/bind/listen steps succeed when attempted, the
IPv4 acceptor ends up open and listening, with its open attempted, if
and only if the IPv6 acceptor is not open after the IPv6 phase or it is
open but remained restricted to v6-only; and when the IPv6 acceptor
opened in dual-stack mode, no IPv4 open is attempted and the IPv4
acceptor stays closed. -/
theorem c3_v4_exactly_when (env : OsEnv) (ipv4_only : Bool)
    (s : ServerState)
    (hnothrow : (v6Phase env ipv4_only s).thrown = none)
    (h4closed : s.v4IsOpen = false)
    (h4o : env.v4Open = none) (h4r : env.v4Reuse = none)
    (h4b : env.v4Bind = none) (h4l : env.v4Listen = none) :
    (((accept_connections env ipv4_only s).st.v4IsOpen = true ∧
      (accept_connections env ipv4_only s).st.v4Listening = true ∧
      Action.openV4 ∈ (accept_connections env ipv4_only s).acts) ↔
     ((v6Phase env ipv4_only s).st.v6IsOpen = false ∨
      (v6Phase env ipv4_only s).v6only = true)) ∧
    (((v6Phase env ipv4_only s).st.v6IsOpen = true ∧
      (v6Phase env ipv4_only s).v6only = false) →
      (Action.openV4 ∉ (accept_connections env ipv4_only s).acts ∧
       (accept_connections env ipv4_only s).st.v4IsOpen = false)) := by
  have hframe := v6Phase_frame env ipv4_only s
  have hs4' : (v6Phase env ipv4_only s).st.v4IsOpen = false :=
    hframe.1.trans h4closed
  by_cases hcond : (v6Phase env ipv4_only s).st.v6IsOpen = false ∨
      (v6Phase env ipv4_only s).v6only = true
  · have hcond' :
        (!(v6Phase env ipv4_only s).st.v6IsOpen ||
          (v6Phase env ipv4_only s).v6only) = true := by
      rcases hcond with h | h <;> simp [h]
    have hv4 : v4Phase env (v6Phase env ipv4_only s).st =
        ⟨{ (v6Phase env ipv4_only s).st with
            v4IsOpen := true, v4Listening := true },
         [Action.openV4, Action.reuseV4, Action.bindV4, Action.listenV4],
         none, none⟩ := by
      simp [v4Phase, hs4', h4o, h4r, h4b, h4l]
    constructor
    · rw [iff_true_right hcond]
      simp [accept_connections, hnothrow, hcond', hv4, start_accept]
    · intro ⟨h6open, h6only⟩
      rcases hcond with h | h
      · rw [h6open] at h; cases h
      · rw [h6only] at h; cases h
  · push_neg at hcond
    obtain ⟨h6open0, h6only0⟩ := hcond
    have h6open : (v6Phase env ipv4_only s).st.v6IsOpen = true := by
      revert h6open0; cases (v6Phase env ipv4_only s).st.v6IsOpen <;> simp
    have h6only : (v6Phase env ipv4_only s).v6only = false := by
      revert h6only0; cases (v6Phase env ipv4_only s).v6only <;> simp
    have hcond' :
        (!(v6Phase env ipv4_only s).st.v6IsOpen ||
          (v6Phase env ipv4_only s).v6only) = false := by
      simp [h6open, h6only]
    constructor
    · rw [iff_false_right (by simp [h6open, h6only])]
      intro ⟨hopen4, hlisten4, hmem⟩
      revert hmem
      simp only [accept_connections, hnothrow, hcond']
      simp [start_accept]
      exact (v6Phase_acts env ipv4_only s 0 none).2.2.2
    · intro _
      constructor
      · simp only [accept_connections, hnothrow, hcond']
        simp [start_accept]
        exact (v6Phase_acts env ipv4_only s 0 none).2.2.2
      · simp only [accept_connections, hnothrow, hcond']
        simp [start_accept, hs4']

/-- Witness for c3_v4_exactly_when, both directions exercised: with a
platform whose IPv6 acceptor stays v6-only, the IPv4 acceptor is opened
and listens; with a dual-stack platform it is not attempted. -/
theorem c3_witness :
    (accept_connections
      ⟨none, none, true, none, none, none, none, none, none, none⟩
      false server.ctor1).st.v4IsOpen = true ∧
    Action.openV4 ∉
      (accept_connections
        ⟨none, none, false, none, none, none, none, none, none, none⟩
        false server.ctor1).acts := by
  have h1 :=
    c3_v4_exactly_when
      ⟨none, none, true, none, none, none, none, none, none, none⟩
      false server.ctor1 (by decide) rfl rfl rfl rfl rfl
  have h2 :=
    c3_v4_exactly_when
      ⟨none, none, false, none, none, none, none, none, none, none⟩
      false server.ctor1 (by decide) rfl rfl rfl rfl rfl
  exact ⟨(h1.1.mpr (Or.inr (by decide))).1,
         (h2.2 ⟨by decide, by decide⟩).1⟩

theorem serverInv_congr {s t : ServerState} (h : ServerInv s)
    (hc : t.connections = s.connections)
    (hp : t.nextConnection = s.nextConnection)
    (hn : t.nextId = s.nextId) : ServerInv t := by
  obtain ⟨h1, h2⟩ := h
  constructor
  · intro c hcmem
    rw [hc] at hcmem
    rw [hn]
    exact h1 c hcmem
  · intro c hpc
    rw [hp] at hpc
    obtain ⟨ha, hb⟩ := h2 c hpc
    rw [hn, hc]
    exact ⟨ha, hb⟩

theorem serverInv_start_accept {s : ServerState} (h : ServerInv s) :
    ServerInv (start_accept s).1 := by
  obtain ⟨h1, h2⟩ := h
  constructor
  · intro c hc
    simp only [start_accept] at hc ⊢
    exact Nat.lt_succ_of_lt (h1 c hc)
  · intro c hc
    simp only [start_accept, Option.some.injEq] at hc
    subst hc
    simp only [start_accept]
    exact ⟨Nat.lt_succ_self _,
           fun hmem => absurd (h1 _ hmem) (lt_irrefl _)⟩

theorem serverInv_accept_handler {s : ServerState} {e : Option Nat}
    {p : ServerState × List Action} (hp : accept_handler e s = some p)
    (h : ServerInv s) : ServerInv p.1 := by
  by_cases hg : (s.v6IsOpen || s.v4IsOpen) = true ∧ e ≠ some operationAborted
  · unfold accept_handler at hp
    rw [if_pos hg] at hp
    match e with
    | some er =>
      obtain rfl := Option.some.inj hp
      exact serverInv_start_accept h
    | none =>
      cases hpc : s.nextConnection with
      | none => rw [hpc] at hp; cases hp
      | some cid =>
        rw [hpc] at hp
        obtain rfl := Option.some.inj hp
        apply serverInv_start_accept
        obtain ⟨h1, h2⟩ := h
        obtain ⟨hlt, hnotmem⟩ := h2 cid hpc
        constructor
        · intro c hc
          simp only [Finset.mem_insert] at hc
          rcases hc with rfl | hc
          · exact hlt
          · exact h1 c hc
        · intro c hc
          simp at hc
  · unfold accept_handler at hp
    rw [if_neg hg] at hp
    obtain rfl := Option.some.inj hp
    exact h

theorem serverInv_event (ev wptr : Nat) (alive : Bool) {s : ServerState}
    (h : ServerInv s) : ServerInv (event_handler ev wptr alive s).1 := by
  unfold event_handler
  obtain ⟨h1, h2⟩ := h
  repeat' split
  all_goals refine ⟨?_, ?_⟩ <;> intro c hc
  · exact h1 c (Finset.mem_of_mem_erase hc)
  · obtain ⟨ha, hb⟩ := h2 c hc
    exact ⟨ha, fun hmem => hb (Finset.mem_of_mem_erase hmem)⟩
  all_goals first
    | exact h1 c hc
    | exact h2 c hc

theorem serverInv_close (s : ServerState) : ServerInv (close s) := by
  constructor <;> simp [close]

theorem serverInv_accept_connections (env : OsEnv) (b : Bool)
    {s : ServerState} (h : ServerInv s) :
    ServerInv (accept_connections env b s).st := by
  have h6 := v6Phase_frame env b s
  have hInv6 : ServerInv (v6Phase env b s).st :=
    serverInv_congr h h6.2.2.1 h6.2.2.2.1 h6.2.2.2.2.1
  cases ht : (v6Phase env b s).thrown with
  | some e =>
    simp only [accept_connections, ht]
    exact hInv6
  | none =>
    cases hc : (!(v6Phase env b s).st.v6IsOpen || (v6Phase env b s).v6only) with
    | true =>
      have h4 := v4Phase_frame env (v6Phase env b s).st
      have hInv4 : ServerInv (v4Phase env (v6Phase env b s).st).st :=
        serverInv_congr hInv6 h4.2.2.1 h4.2.2.2.1 h4.2.2.2.2.1
      cases ht4 : (v4Phase env (v6Phase env b s).st).thrown with
      | some e =>
        simp only [accept_connections, ht, hc, ht4]
        exact hInv4
      | none =>
        simp only [accept_connections, ht, hc, ht4]
        exact serverInv_start_accept hInv4
    | false =>
      simp only [accept_connections, ht, hc]
      exact serverInv_start_accept hInv6

theorem reachable_serverInv {s : ServerState} (h : Reachable s) :
    ServerInv s := by
  induction h with
  | init1 => exact ⟨by simp [server.ctor1], by simp [server.ctor1]⟩
  | init2 =>
    exact ⟨by simp [server.ctor2, server.ctor1],
           by simp [server.ctor2, server.ctor1]⟩
  | step _ hstep ih =>
    cases hstep with
    | openConns env b => exact serverInv_accept_connections env b ih
    | acceptDone e p hp => exact serverInv_accept_handler hp ih
    | eventDelivery ev wptr alive => exact serverInv_event ev wptr alive ih
    | errorDelivery e wptr => exact ih
    | closeServer => exact serverInv_close _
    | setRx n => exact serverInv_congr ih rfl rfl rfl
    | setNoDelay b => exact serverInv_congr ih rfl rfl rfl
    | setKeepAlive b => exact serverInv_congr ih rfl rfl rfl
    | setTimeout t => exact serverInv_congr ih rfl rfl rfl

/-- C9: in every state reachable through the server's operations, the
Transport held in the pending slot is never in the registry: promotion
inserts the pending Transport and clears the slot in the same step, and
the fresh pending Transport created by start_accept has a previously
unused id. -/
theorem c9_pending_not_registered (s : ServerState) (h : Reachable s)
    (c : Nat) (hc : s.nextConnection = some c) : c ∉ s.connections :=
  ((reachable_serverInv h).2 c hc).2

/-- Witness for c9_pending_not_registered: after a successful dual-stack
open from a fresh server, the pending Transport is 0 and 0 is not
registered. -/
theorem c9_witness :
    0 ∉ (accept_connections
      ⟨none, none, false, none, none, none, none, none, none, none⟩
      false server.ctor1).st.connections :=
  c9_pending_not_registered _
    (Reachable.step Reachable.init1
      (Step.openConns server.ctor1
        ⟨none, none, false, none, none, none, none, none, none, none⟩
        false))
    0 (by decide)

end ViaComms
